import Mathlib

/-!
Verification of the Mini-PharmAtlas MCP server (gene to disease/drug
association engine) against its natural-language specification.

The repository consists of three Python files sharing one design:

* `src/mcp_server/FunctionalMCP/mcpserver_drugdisease.py` (namespace
  `DrugDisease` below): resolves a gene symbol, queries the TRAPI knowledge
  graph for diseases and chemical entities concurrently, and assembles a
  capped summary.
* `src/mcp_server/.ipynb_checkpoints/mcp_generic-checkpoint.py` (namespace
  `McpGeneric`): a variant whose extractor does NOT deduplicate, with
  `find_gene_diseases`, `get_gene_info` and `analyze_gene_list` tools.
* `src/mcp_server/.ipynb_checkpoints/mcp_diseaseEntity-checkpoint.py`
  (namespace `DiseaseEntity`): a variant whose extractor deduplicates by
  disease id, with the same three tools.

Network effects are embedded by passing the outcome of each outbound call
as an explicit data parameter (`FetchResult`, `HttpOutcome`, `KgOutcome`),
and counting the calls a handler issues as an explicit `Nat` component of
its result.  All container operations mirror the Python source: dicts with
insertion order become association lists, `list[:n]` becomes `pySlice`,
`sorted(key=..., reverse=True)` (a stable descending sort in Python)
becomes the stable insertion sort `sortDescBySnd`.
-/

/-- Status field of the dict returned by `get_gene_info` in all three files:
the string values "found", "not_found", "error". -/
inductive GeneStatus where
  | found
  | not_found
  | error
deriving DecidableEq, Repr

/-- Shape of the dict returned by `get_gene_info`.  Keys that a branch of the
Python code omits are modelled as `none` (`gene_symbol` is absent in the
error branch of the FunctionalMCP variant; `entrez_id` is present only in
the found branch; `error` only in the error branch). -/
structure GeneLookup where
  gene_symbol : Option String
  entrez_id : Option String
  status : GeneStatus
  errorDetail : Option String
deriving DecidableEq, Repr

/-- Outcome of the NCBI esearch HTTP GET issued by `get_gene_info`:
either a decoded response whose `esearchresult.idlist` (with the `.get`
defaults of the source applied) is the given list, or any exception
(transport, timeout, non-2xx raised by `raise_for_status`, JSON decode)
carrying its message. -/
inductive FetchResult where
  | success (idlist : List String)
  | failure (msg : String)
deriving DecidableEq, Repr

/-- Entry of `message.knowledge_graph.nodes` for one node id: the Python
code reads `name` with fallback (`.get("name", node_id)`) and `categories`
with default `[]`, so `name` is optional here. -/
structure NodeInfo where
  name : Option String
  categories : List String
deriving DecidableEq, Repr

/-- One element of a `node_bindings["n1"]` list; the code reads its `id`
with `.get("id")`, which may be absent. -/
structure NodeBinding where
  id : Option String
deriving DecidableEq, Repr

/-- One element of `message.results`: the `n1` binding list, read with
defaults `node_bindings = result.get("node_bindings", {})` and
`node_bindings.get("n1", [])`. -/
structure ResultRow where
  n1 : List NodeBinding
deriving DecidableEq, Repr

/-- The decoded `message` part of a TRAPI response: `results` rows and the
`knowledge_graph.nodes` id-to-info map (a Python dict in insertion order,
modelled as an association list with unique keys looked up by first
match). -/
structure KGMessage where
  results : List ResultRow
  nodes : List (String × NodeInfo)
deriving DecidableEq, Repr

/-- Value fed to the extractors: either the decoded TRAPI document or the
`{"error": ...}` dict produced by the query client on failure. -/
inductive KGResult where
  | error (msg : String)
  | ok (message : KGMessage)
deriving DecidableEq, Repr

/-- Outcome of the TRAPI HTTP POST in the DrugDisease and McpGeneric
variants: a decoded document, or any exception carrying its message. -/
inductive HttpOutcome where
  | ok (message : KGMessage)
  | fail (msg : String)
deriving DecidableEq, Repr

/-- Outcome of the TRAPI HTTP POST in the DiseaseEntity variant, which
catches `httpx.HTTPStatusError` (carrying status code and body text)
separately from other exceptions. -/
inductive KgOutcome where
  | ok (message : KGMessage)
  | httpError (code : Nat) (text : String)
  | fail (msg : String)
deriving DecidableEq, Repr

/-- Record dict appended by `extract_associations` in the DrugDisease file:
keys `id`, `name`, `type`, `categories`. -/
structure AssocRecord where
  id : String
  name : String
  type_label : String
  categories : List String
deriving DecidableEq, Repr

/-- Element of the list returned by `extract_associations`: either the
single `{"error": ...}` marker dict or a normal record dict. -/
inductive AssocItem where
  | errorItem (msg : String)
  | record (r : AssocRecord)
deriving DecidableEq, Repr

/-- Value of `i["id"]` as used by the duplicate check, as far as it is
defined: a record dict has an `id` key, the error marker has none. -/
def itemId : AssocItem → Option String
  | .errorItem _ => none
  | .record r => some r.id

/-- Ids of the record-shaped items of an extraction result, in order. -/
def recordIds (items : List AssocItem) : List String :=
  items.filterMap itemId

/-- Record dict appended by `extract_disease_associations` in the
McpGeneric and DiseaseEntity files: keys `disease_id`, `disease_name`,
`categories`. -/
structure DiseaseRecord where
  disease_id : String
  disease_name : String
  categories : List String
deriving DecidableEq, Repr

/-- Element of the list returned by `extract_disease_associations`. -/
inductive DiseaseItem where
  | errorItem (msg : String)
  | record (r : DiseaseRecord)
deriving DecidableEq, Repr

/-- Value of `d["disease_id"]` for the DiseaseEntity duplicate check. -/
def diseaseItemId : DiseaseItem → Option String
  | .errorItem _ => none
  | .record r => some r.disease_id

/-- Value of `disease.get("disease_name", "Unknown")` as read by the tally
loop of `analyze_gene_list`: the error marker dict has no `disease_name`
key, so it yields the default "Unknown". -/
def diseaseName : DiseaseItem → String
  | .errorItem _ => "Unknown"
  | .record r => r.disease_name

/-- Python slice `xs[:limit]` for an arbitrary integer `limit`: a
nonnegative bound keeps the first `limit` elements; a negative bound drops
the last `|limit|` elements (clamping at the empty list). -/
def pySlice (limit : Int) (xs : List α) : List α :=
  if 0 ≤ limit then xs.take limit.toNat
  else xs.take (xs.length - (-limit).toNat)

/-- One execution of
`disease_counts[name] = disease_counts.get(name, 0) + 1` on an
insertion-ordered dict modelled as an association list with unique keys:
an existing key is bumped in place, a new key is appended at the end. -/
def bump : List (String × Nat) → String → List (String × Nat)
  | [], name => [(name, 1)]
  | (k, v) :: rest, name =>
      if k = name then (k, v + 1) :: rest else (k, v) :: bump rest name

/-- Count held by the tally for a name (0 when the name is absent). -/
def tallyCount (counts : List (String × Nat)) (name : String) : Nat :=
  (counts.lookup name).getD 0

/-- The inner tally loop of `analyze_gene_list`
(`for disease in diseases: disease_counts[...] += 1`), run for one gene's
extracted list. -/
def tallyGene (counts : List (String × Nat)) (diseases : List DiseaseItem) :
    List (String × Nat) :=
  diseases.foldl (fun c d => bump c (diseaseName d)) counts

/-- Insertion step of a stable descending sort on the second component:
the new element passes over strictly greater counts and lands before the
first element whose count is less than or equal to its own, so elements
inserted later stay after earlier equal-count elements. -/
def insertDesc (x : String × Nat) : List (String × Nat) → List (String × Nat)
  | [] => [x]
  | y :: ys => if x.2 < y.2 then y :: insertDesc x ys else x :: y :: ys

/-- Embedding of `sorted(items, key=lambda x: x[1], reverse=True)`:
Python's sort is stable and `reverse=True` keeps equal elements in their
original order, which this insertion sort reproduces exactly. -/
def sortDescBySnd : List (String × Nat) → List (String × Nat)
  | [] => []
  | x :: xs => insertDesc x (sortDescBySnd xs)

/-- The ranking step of `analyze_gene_list`:
`sorted(disease_counts.items(), key=lambda x: x[1], reverse=True)[:10]`. -/
def rankCommon (counts : List (String × Nat)) : List (String × Nat) :=
  (sortDescBySnd counts).take 10

/-- Entry of the per-gene `results` list built by `analyze_gene_list`. -/
structure GeneDetail where
  gene : String
  entrez_id : String
  disease_count : Nat
deriving DecidableEq, Repr

/-- Summary dict returned by `analyze_gene_list` (field order of the two
checkpoint files differs but the content is the same). -/
structure AnalysisSummary where
  genes_analyzed : List String
  common_diseases : List (String × Nat)
  details : List GeneDetail
deriving DecidableEq, Repr

/-- Fold that, besides folding `g`, counts its iterations; used to make
the number of identifier lookups issued by `analyze_gene_list` (exactly
one per loop iteration) an explicit output. -/
def countingFoldl (g : σ → α → σ) (l : List α) (st : σ × Nat) : σ × Nat :=
  l.foldl (fun st a => (g st.1 a, st.2 + 1)) st

namespace DrugDisease

/-- Source: `query_translator_kg` in mcpserver_drugdisease.py.  Builds the
two-node TRAPI query for the given entrez id and target category and posts
it; a 2xx decoded response is returned as is, any exception is returned as
the data value `{"error": "Connection error: ..."}`.  The function is
total: no exception crosses its boundary. -/
def query_translator_kg (entrez_id : String) (target_category : String)
    (outcome : HttpOutcome) : KGResult :=
  match entrez_id, target_category, outcome with
  | _, _, .ok message => .ok message
  | _, _, .fail msg => .error ("Connection error: " ++ msg)

/-- Body of the inner loop of `extract_associations`: reads the binding's
`id`, looks it up in the node catalogue, and appends a record unless an
item with that id is already present
(`if not any(i['id'] == node_id for i in items)`). -/
def extractStep (nodes_map : List (String × NodeInfo)) (type_label : String)
    (items : List AssocItem) (node : NodeBinding) : List AssocItem :=
  match node.id with
  | none => items
  | some node_id =>
    match nodes_map.lookup node_id with
    | none => items
    | some node_info =>
      if items.any (fun i => itemId i == some node_id) then items
      else items ++
        [AssocItem.record
          ⟨node_id, node_info.name.getD node_id, type_label,
            node_info.categories⟩]

/-- Source: `extract_associations` in mcpserver_drugdisease.py.  An error
result becomes the one-element error-marker list; otherwise the rows of
`message.results` are walked in order, and each bound `n1` node that is
present in the node catalogue contributes one record, skipping ids already
emitted. -/
def extract_associations (kg_result : KGResult) (type_label : String) :
    List AssocItem :=
  match kg_result with
  | .error msg => [.errorItem msg]
  | .ok message =>
    message.results.foldl
      (fun items result =>
        result.n1.foldl (extractStep message.nodes type_label) items)
      []

/-- Source: `get_gene_info` in mcpserver_drugdisease.py.  A decoded
response with a nonempty id list yields status "found" and the first id; an
empty id list yields "not_found"; any exception yields the dict
`{"error": str(e), "status": "error"}` (note: no `gene_symbol` key in this
variant's error branch). -/
def get_gene_info (gene_symbol : String) (fetch : FetchResult) : GeneLookup :=
  match fetch with
  | .success (h :: _) => ⟨some gene_symbol, some h, .found, none⟩
  | .success [] => ⟨some gene_symbol, none, .not_found, none⟩
  | .failure msg => ⟨none, none, .error, some msg⟩

/-- Summary dict assembled by the `find_gene_interactions` tool. -/
structure GeneSummary where
  gene : String
  entrez_id : String
  disease_count : Nat
  drug_count : Nat
  top_diseases : List AssocItem
  top_drugs : List AssocItem
deriving DecidableEq, Repr

/-- Result of the `find_gene_interactions` tool: the not-found text or the
serialized summary. -/
inductive ToolOutput where
  | notFound (msg : String)
  | summary (s : GeneSummary)
deriving DecidableEq, Repr

/-- Source: the `find_gene_interactions` branch of `call_tool` in
mcpserver_drugdisease.py.  The second component counts the knowledge-graph
queries issued: 0 when resolution short-circuits, 2 otherwise (the two
`query_translator_kg` tasks run through `asyncio.gather`; each catches its
own failures, so both always complete and no fault propagates). -/
def find_gene_interactions (raw_symbol : String) (fetch : FetchResult)
    (diseaseOutcome drugOutcome : HttpOutcome) : ToolOutput × Nat :=
  let gene_symbol := raw_symbol.toUpper
  let gene_info := get_gene_info gene_symbol fetch
  if gene_info.status ≠ .found then
    (.notFound ("Could not find gene: " ++ gene_symbol), 0)
  else
    let entrez_id := gene_info.entrez_id.getD ""
    let disease_raw := query_translator_kg entrez_id "biolink:Disease" diseaseOutcome
    let drug_raw := query_translator_kg entrez_id "biolink:ChemicalEntity" drugOutcome
    let diseases := extract_associations disease_raw "Disease"
    let drugs := extract_associations drug_raw "Drug"
    (.summary
      ⟨gene_symbol, entrez_id, diseases.length, drugs.length,
        diseases.take 15, drugs.take 15⟩, 2)

/-- Field `top_drugs` of a tool output (the not-found text carries none). -/
def topDrugsOf : ToolOutput → List AssocItem
  | .notFound _ => []
  | .summary s => s.top_drugs

/-- Field `top_diseases` of a tool output. -/
def topDiseasesOf : ToolOutput → List AssocItem
  | .notFound _ => []
  | .summary s => s.top_diseases

end DrugDisease

namespace McpGeneric

/-- Source: `query_translator_kg` in mcp_generic-checkpoint.py.  Any
exception is returned as the data value `{"error": str(e)}` (no message
prefix in this variant). -/
def query_translator_kg (gene_name : String) (outcome : HttpOutcome) :
    KGResult :=
  match gene_name, outcome with
  | _, .ok message => .ok message
  | _, .fail msg => .error msg

/-- Source: `extract_disease_associations` in mcp_generic-checkpoint.py.
Unlike the other two variants this extractor performs NO duplicate check:
every bound `n1` node found in the catalogue appends a record, once per
raw occurrence. -/
def extract_disease_associations (kg_result : KGResult) : List DiseaseItem :=
  match kg_result with
  | .error msg => [.errorItem msg]
  | .ok message =>
    message.results.foldl
      (fun diseases result =>
        result.n1.foldl
          (fun diseases node =>
            match node.id with
            | none => diseases
            | some disease_id =>
              match message.nodes.lookup disease_id with
              | none => diseases
              | some disease_info =>
                diseases ++
                  [DiseaseItem.record
                    ⟨disease_id, disease_info.name.getD disease_id,
                      disease_info.categories⟩])
          diseases)
      []

/-- Source: `get_gene_info` in mcp_generic-checkpoint.py (the error branch
of this variant keeps the `gene_symbol` key). -/
def get_gene_info (gene_symbol : String) (fetch : FetchResult) : GeneLookup :=
  match fetch with
  | .success (h :: _) => ⟨some gene_symbol, some h, .found, none⟩
  | .success [] => ⟨some gene_symbol, none, .not_found, none⟩
  | .failure msg => ⟨some gene_symbol, none, .error, some msg⟩

/-- Result dict assembled by the `find_gene_diseases` tool of this
variant. -/
structure DiseaseReport where
  gene : String
  entrez_id : String
  disease_associations : List DiseaseItem
  total_diseases_found : Nat
deriving DecidableEq, Repr

/-- Result of the `find_gene_diseases` tool. -/
inductive DiseasesOutput where
  | notFound (msg : String)
  | report (r : DiseaseReport)
deriving DecidableEq, Repr

/-- Source: the `find_gene_diseases` branch of `call_tool` in
mcp_generic-checkpoint.py.  The second component counts knowledge-graph
queries issued: 0 on resolution short-circuit, 1 otherwise. -/
def find_gene_diseases (raw_symbol : String) (fetch : FetchResult)
    (kgOutcome : HttpOutcome) : DiseasesOutput × Nat :=
  let gene_symbol := raw_symbol.toUpper
  let gene_info := get_gene_info gene_symbol fetch
  if gene_info.status ≠ .found then
    (.notFound ("Could not find gene: " ++ gene_symbol), 0)
  else
    let kg_result := query_translator_kg (gene_info.entrez_id.getD "") kgOutcome
    let diseases := extract_disease_associations kg_result
    (.report ⟨gene_symbol, gene_info.entrez_id.getD "", diseases, diseases.length⟩, 1)

/-- Loop body of the `analyze_gene_list` tool of this variant: resolve the
symbol; when found, query the knowledge graph (the outcome for the gene at
position `i` of the truncated list is `kgO i`), extract, append the
per-gene detail and run the tally loop; otherwise leave the state
unchanged. -/
def analyzeStep (lookupO : Nat → FetchResult) (kgO : Nat → HttpOutcome)
    (st : List GeneDetail × List (String × Nat)) (p : Nat × String) :
    List GeneDetail × List (String × Nat) :=
  let gene_info := get_gene_info p.2 (lookupO p.1)
  if gene_info.status = .found then
    let kg_result := query_translator_kg (gene_info.entrez_id.getD "") (kgO p.1)
    let diseases := extract_disease_associations kg_result
    (st.1 ++ [⟨p.2, gene_info.entrez_id.getD "", diseases.length⟩],
      tallyGene st.2 diseases)
  else st

/-- Source: the `analyze_gene_list` branch of `call_tool` in
mcp_generic-checkpoint.py.  The input list is sliced to `[:limit]` and
uppercased before the loop starts; the loop issues exactly one identifier
lookup per retained symbol (counted by `countingFoldl` in the second
component of the result) and tallies disease-name occurrences; the summary
ranks the tally with `rankCommon`. -/
def analyze_gene_list (gene_symbols : List String) (limit : Int)
    (lookupO : Nat → FetchResult) (kgO : Nat → HttpOutcome) :
    AnalysisSummary × Nat :=
  let retained := (pySlice limit gene_symbols).map String.toUpper
  let st := countingFoldl (analyzeStep lookupO kgO) retained.enum (([], []), 0)
  (⟨retained, rankCommon st.1.2, st.1.1⟩, st.2)

end McpGeneric

namespace DiseaseEntity

/-- Source: `query_translator_kg` in mcp_diseaseEntity-checkpoint.py.  A
non-2xx response raised as `httpx.HTTPStatusError` yields
`{"error": "HTTP Error: <code> - <text>"}`; any other exception yields
`{"error": "Connection error: ..."}`. -/
def query_translator_kg (entrez_id : String) (outcome : KgOutcome) :
    KGResult :=
  match entrez_id, outcome with
  | _, .ok message => .ok message
  | _, .httpError code text =>
      .error ("HTTP Error: " ++ toString code ++ " - " ++ text)
  | _, .fail msg => .error ("Connection error: " ++ msg)

/-- Source: `extract_disease_associations` in
mcp_diseaseEntity-checkpoint.py.  Same walk as the McpGeneric variant but
with the duplicate check
`if not any(d['disease_id'] == disease_id for d in diseases)`. -/
def extract_disease_associations (kg_result : KGResult) : List DiseaseItem :=
  match kg_result with
  | .error msg => [.errorItem msg]
  | .ok message =>
    message.results.foldl
      (fun diseases result =>
        result.n1.foldl
          (fun diseases node =>
            match node.id with
            | none => diseases
            | some disease_id =>
              match message.nodes.lookup disease_id with
              | none => diseases
              | some disease_info =>
                if diseases.any (fun d => diseaseItemId d == some disease_id) then
                  diseases
                else
                  diseases ++
                    [DiseaseItem.record
                      ⟨disease_id, disease_info.name.getD disease_id,
                        disease_info.categories⟩])
          diseases)
      []

/-- Source: `get_gene_info` in mcp_diseaseEntity-checkpoint.py (same
shape as the McpGeneric variant). -/
def get_gene_info (gene_symbol : String) (fetch : FetchResult) : GeneLookup :=
  match fetch with
  | .success (h :: _) => ⟨some gene_symbol, some h, .found, none⟩
  | .success [] => ⟨some gene_symbol, none, .not_found, none⟩
  | .failure msg => ⟨some gene_symbol, none, .error, some msg⟩

/-- Loop body of the `analyze_gene_list` tool of this variant (identical
to the McpGeneric one except for the deduplicating extractor and the
three-branch query outcome). -/
def analyzeStep (lookupO : Nat → FetchResult) (kgO : Nat → KgOutcome)
    (st : List GeneDetail × List (String × Nat)) (p : Nat × String) :
    List GeneDetail × List (String × Nat) :=
  let gene_info := get_gene_info p.2 (lookupO p.1)
  if gene_info.status = .found then
    let kg_result := query_translator_kg (gene_info.entrez_id.getD "") (kgO p.1)
    let diseases := extract_disease_associations kg_result
    (st.1 ++ [⟨p.2, gene_info.entrez_id.getD "", diseases.length⟩],
      tallyGene st.2 diseases)
  else st

/-- Source: the `analyze_gene_list` branch of `call_tool` in
mcp_diseaseEntity-checkpoint.py, structured exactly as the McpGeneric
variant. -/
def analyze_gene_list (gene_symbols : List String) (limit : Int)
    (lookupO : Nat → FetchResult) (kgO : Nat → KgOutcome) :
    AnalysisSummary × Nat :=
  let retained := (pySlice limit gene_symbols).map String.toUpper
  let st := countingFoldl (analyzeStep lookupO kgO) retained.enum (([], []), 0)
  (⟨retained, rankCommon st.1.2, st.1.1⟩, st.2)

end DiseaseEntity

/-! ## Characterization of the extractor walk

The following definitions restate, in specification terms, which ids the
extractor walk visits ("the node bound to the query's target variable
across all declared result rows", filtered by presence in the node
catalogue) and what "first occurrence wins" deduplication means.  They are
compared against the embedded source functions in the theorems below. -/

/-- Bound `n1` node bindings of all result rows, in row order. -/
def candidateBindings (message : KGMessage) : List NodeBinding :=
  (message.results.map ResultRow.n1).flatten

/-- Ids bound in the rows, in order of appearance, restricted to those
present in the node catalogue — exactly the ids eligible to produce a
record. -/
def cataloguedIds (nodes_map : List (String × NodeInfo))
    (cands : List NodeBinding) : List String :=
  (cands.filterMap NodeBinding.id).filter
    (fun i => (nodes_map.lookup i).isSome)

/-- Specification-side first-occurrence deduplication: keep the first
appearance of each id not already in `seen`, drop later repeats. -/
def firstDedupFrom (seen : List String) : List String → List String
  | [] => []
  | x :: xs =>
      if x ∈ seen then firstDedupFrom seen xs
      else x :: firstDedupFrom (x :: seen) xs

lemma any_itemId_iff (items : List AssocItem) (nid : String) :
    items.any (fun i => itemId i == some nid) = true ↔ nid ∈ recordIds items := by
  simp [List.any_eq_true, recordIds, List.mem_filterMap]

lemma firstDedupFrom_congr :
    ∀ (l : List String) {s t : List String},
      (∀ a : String, a ∈ s ↔ a ∈ t) →
      firstDedupFrom s l = firstDedupFrom t l
  | [], _, _, _ => rfl
  | x :: xs, s, t, h => by
    by_cases hx : x ∈ s
    · simp only [firstDedupFrom, if_pos hx, if_pos ((h x).mp hx)]
      exact firstDedupFrom_congr xs h
    · simp only [firstDedupFrom, if_neg hx,
        if_neg (fun hxt => hx ((h x).mpr hxt))]
      refine congrArg (x :: ·) (firstDedupFrom_congr xs ?_)
      intro a
      simp only [List.mem_cons, h a]

lemma mem_firstDedupFrom :
    ∀ (l seen : List String) (a : String),
      a ∈ firstDedupFrom seen l ↔ a ∈ l ∧ a ∉ seen
  | [], seen, a => by simp [firstDedupFrom]
  | x :: xs, seen, a => by
    by_cases hx : x ∈ seen
    · simp only [firstDedupFrom, if_pos hx, mem_firstDedupFrom xs seen a]
      constructor
      · exact fun h => ⟨List.mem_cons_of_mem x h.1, h.2⟩
      · rintro ⟨h1, h2⟩
        rcases List.mem_cons.mp h1 with rfl | h1
        · exact absurd hx h2
        · exact ⟨h1, h2⟩
    · simp only [firstDedupFrom, if_neg hx]
      constructor
      · intro h
        rcases List.mem_cons.mp h with rfl | h
        · exact ⟨List.mem_cons_self a xs, hx⟩
        · have h3 := (mem_firstDedupFrom xs (x :: seen) a).mp h
          exact ⟨List.mem_cons_of_mem x h3.1,
            fun hs => h3.2 (List.mem_cons_of_mem x hs)⟩
      · rintro ⟨h1, h2⟩
        rcases List.mem_cons.mp h1 with rfl | h1
        · exact List.mem_cons_self a _
        · by_cases hax : a = x
          · exact hax ▸ List.mem_cons_self x _
          · exact List.mem_cons_of_mem x
              ((mem_firstDedupFrom xs (x :: seen) a).mpr
                ⟨h1, fun hs => (List.mem_cons.mp hs).elim hax h2⟩)

lemma nodup_firstDedupFrom :
    ∀ (l seen : List String), (firstDedupFrom seen l).Nodup
  | [], seen => by simp [firstDedupFrom]
  | x :: xs, seen => by
    by_cases hx : x ∈ seen
    · simpa only [firstDedupFrom, if_pos hx] using nodup_firstDedupFrom xs seen
    · simp only [firstDedupFrom, if_neg hx, List.nodup_cons]
      refine ⟨fun hmem => ?_, nodup_firstDedupFrom xs (x :: seen)⟩
      exact ((mem_firstDedupFrom xs (x :: seen) x).mp hmem).2 (List.mem_cons_self x seen)

lemma foldl_inner_eq_flatten {β : Type} (step : List β → NodeBinding → List β) :
    ∀ (rows : List ResultRow) (init : List β),
      rows.foldl (fun items r => r.n1.foldl step items) init
        = ((rows.map ResultRow.n1).flatten).foldl step init
  | [], init => rfl
  | r :: rows, init => by
    simp only [List.foldl_cons, List.map_cons, List.flatten_cons,
      List.foldl_append]
    exact foldl_inner_eq_flatten step rows (r.n1.foldl step init)

lemma recordIds_append_record (items : List AssocItem) (r : AssocRecord) :
    recordIds (items ++ [AssocItem.record r]) = recordIds items ++ [r.id] := by
  simp [recordIds, List.filterMap_append, itemId]

lemma recordIds_foldl_extractStep (nm : List (String × NodeInfo)) (lbl : String) :
    ∀ (cands : List NodeBinding) (items : List AssocItem),
      recordIds (cands.foldl (DrugDisease.extractStep nm lbl) items)
        = recordIds items ++
            firstDedupFrom (recordIds items) (cataloguedIds nm cands)
  | [], items => by simp [cataloguedIds, firstDedupFrom]
  | c :: cs, items => by
    rcases c with ⟨cid⟩
    rcases cid with _ | nid
    · simp only [List.foldl_cons, DrugDisease.extractStep]
      have : cataloguedIds nm (⟨none⟩ :: cs) = cataloguedIds nm cs := by
        simp [cataloguedIds]
      rw [this]
      exact recordIds_foldl_extractStep nm lbl cs items
    · rcases hnm : nm.lookup nid with _ | info
      · simp only [List.foldl_cons, DrugDisease.extractStep, hnm]
        have : cataloguedIds nm (⟨some nid⟩ :: cs) = cataloguedIds nm cs := by
          simp [cataloguedIds, hnm]
        rw [this]
        exact recordIds_foldl_extractStep nm lbl cs items
      · have hcat : cataloguedIds nm (⟨some nid⟩ :: cs)
            = nid :: cataloguedIds nm cs := by
          simp [cataloguedIds, hnm]
        by_cases hmem : nid ∈ recordIds items
        · have hany : (items.any (fun i => itemId i == some nid)) = true :=
            (any_itemId_iff items nid).mpr hmem
          simp only [List.foldl_cons, DrugDisease.extractStep, hnm, hany,
            if_true, hcat, firstDedupFrom, if_pos hmem]
          exact recordIds_foldl_extractStep nm lbl cs items
        · have hany : (items.any (fun i => itemId i == some nid)) = false := by
            rw [Bool.eq_false_iff]
            exact fun hh => hmem ((any_itemId_iff items nid).mp hh)
          simp only [List.foldl_cons, DrugDisease.extractStep, hnm, hany,
            Bool.false_eq_true, if_false, hcat, firstDedupFrom,
            if_neg hmem]
          rw [recordIds_foldl_extractStep nm lbl cs
            (items ++ [AssocItem.record ⟨nid, info.name.getD nid, lbl, info.categories⟩])]
          rw [recordIds_append_record]
          rw [firstDedupFrom_congr (cataloguedIds nm cs)
            (s := recordIds items ++ [nid]) (t := nid :: recordIds items)
            (by intro a; simp [List.mem_append, or_comm])]
          simp [List.append_assoc]

lemma extract_associations_ok (message : KGMessage) (lbl : String) :
    DrugDisease.extract_associations (.ok message) lbl
      = (candidateBindings message).foldl
          (DrugDisease.extractStep message.nodes lbl) [] := by
  simp only [DrugDisease.extract_associations, candidateBindings]
  exact foldl_inner_eq_flatten _ message.results []

lemma itemId_isSome_foldl (nm : List (String × NodeInfo)) (lbl : String) :
    ∀ (cands : List NodeBinding) (items : List AssocItem),
      (∀ it ∈ items, (itemId it).isSome) →
      ∀ it ∈ cands.foldl (DrugDisease.extractStep nm lbl) items,
        (itemId it).isSome
  | [], items, h => h
  | c :: cs, items, h => by
    intro it hit
    refine itemId_isSome_foldl nm lbl cs (DrugDisease.extractStep nm lbl items c)
      ?_ it hit
    intro x hx
    rcases c with ⟨cid⟩
    rcases cid with _ | nid
    · exact h x hx
    · rcases hnm : nm.lookup nid with _ | info
      · simp only [DrugDisease.extractStep, hnm] at hx
        exact h x hx
      · simp only [DrugDisease.extractStep, hnm] at hx
        by_cases hany : (items.any (fun i => itemId i == some nid)) = true
        · rw [if_pos hany] at hx
          exact h x hx
        · rw [if_neg hany] at hx
          rcases List.mem_append.mp hx with hx | hx
          · exact h x hx
          · rcases List.mem_singleton.mp hx with rfl
            simp [itemId]

lemma record_name_foldl (nm : List (String × NodeInfo)) (lbl : String) :
    ∀ (cands : List NodeBinding) (items : List AssocItem),
      (∀ r : AssocRecord, AssocItem.record r ∈ items →
        ∀ info, nm.lookup r.id = some info → r.name = info.name.getD r.id) →
      ∀ r : AssocRecord,
        AssocItem.record r ∈ cands.foldl (DrugDisease.extractStep nm lbl) items →
        ∀ info, nm.lookup r.id = some info → r.name = info.name.getD r.id
  | [], items, h => h
  | c :: cs, items, h => by
    refine record_name_foldl nm lbl cs (DrugDisease.extractStep nm lbl items c) ?_
    intro r hr info hinfo
    rcases c with ⟨cid⟩
    rcases cid with _ | nid
    · exact h r hr info hinfo
    · rcases hnm : nm.lookup nid with _ | info0
      · simp only [DrugDisease.extractStep, hnm] at hr
        exact h r hr info hinfo
      · simp only [DrugDisease.extractStep, hnm] at hr
        by_cases hany : (items.any (fun i => itemId i == some nid)) = true
        · rw [if_pos hany] at hr
          exact h r hr info hinfo
        · rw [if_neg hany] at hr
          rcases List.mem_append.mp hr with hr | hr
          · exact h r hr info hinfo
          · rcases List.mem_singleton.mp hr with hr
            cases AssocItem.record.inj hr
            have : info = info0 := by
              rw [hnm] at hinfo
              exact (Option.some.inj hinfo).symm
            rw [this]

lemma tallyCount_bump (counts : List (String × Nat)) (name n : String) :
    tallyCount (bump counts name) n
      = tallyCount counts n + (if name = n then 1 else 0) := by
  induction counts with
  | nil =>
    by_cases hn : name = n
    · subst hn
      simp [bump, tallyCount, List.lookup]
    · have hbeq : (n == name) = false :=
        beq_eq_false_iff_ne.mpr (fun h => hn h.symm)
      simp [bump, tallyCount, List.lookup, hbeq, hn]
  | cons kv rest ih =>
    rcases kv with ⟨k, v⟩
    by_cases hk : k = name
    · subst hk
      simp only [bump, if_pos rfl]
      by_cases hnk : n = k
      · subst hnk
        simp [tallyCount, List.lookup]
      · have hbeq : (n == k) = false := beq_eq_false_iff_ne.mpr hnk
        have hkn : ¬ k = n := fun h => hnk h.symm
        simp [tallyCount, List.lookup, hbeq, hkn]
    · simp only [bump, if_neg hk]
      by_cases hnk : n = k
      · subst hnk
        have hnn : ¬ name = n := fun h => hk h.symm
        simp [tallyCount, List.lookup, hnn]
      · have hbeq : (n == k) = false := beq_eq_false_iff_ne.mpr hnk
        simp only [tallyCount, List.lookup, hbeq]
        exact ih

lemma tallyCount_tallyGene (diseases : List DiseaseItem) :
    ∀ (counts : List (String × Nat)) (n : String),
      tallyCount (tallyGene counts diseases) n
        = tallyCount counts n + (diseases.map diseaseName).count n := by
  induction diseases with
  | nil => intro counts n; simp [tallyGene]
  | cons d rest ih =>
    intro counts n
    simp only [tallyGene, List.foldl_cons] at *
    rw [ih (bump counts (diseaseName d)) n, tallyCount_bump]
    simp only [List.map_cons, List.count_cons]
    by_cases hd : diseaseName d = n
    · rw [if_pos hd, if_pos (beq_iff_eq.mpr hd)]
      omega
    · rw [if_neg hd, if_neg (fun h => hd (beq_iff_eq.mp h))]
      omega

lemma mem_insertDesc (x : String × Nat) :
    ∀ (l : List (String × Nat)) (a : String × Nat),
      a ∈ insertDesc x l ↔ a = x ∨ a ∈ l
  | [], a => by simp [insertDesc]
  | y :: ys, a => by
    by_cases hxy : x.2 < y.2
    · simp only [insertDesc, if_pos hxy, List.mem_cons, mem_insertDesc x ys a]
      tauto
    · simp only [insertDesc, if_neg hxy, List.mem_cons]

lemma pairwise_insertDesc (x : String × Nat) :
    ∀ (l : List (String × Nat)),
      l.Pairwise (fun a b => b.2 ≤ a.2) →
      (insertDesc x l).Pairwise (fun a b => b.2 ≤ a.2)
  | [], _ => by simp [insertDesc]
  | y :: ys, h => by
    rcases List.pairwise_cons.mp h with ⟨hy, hys⟩
    by_cases hxy : x.2 < y.2
    · simp only [insertDesc, if_pos hxy]
      refine List.pairwise_cons.mpr ⟨?_, pairwise_insertDesc x ys hys⟩
      intro a ha
      rcases (mem_insertDesc x ys a).mp ha with rfl | ha
      · exact le_of_lt hxy
      · exact hy a ha
    · simp only [insertDesc, if_neg hxy]
      refine List.pairwise_cons.mpr ⟨?_, h⟩
      intro a ha
      rcases List.mem_cons.mp ha with rfl | ha
      · exact le_of_not_lt hxy
      · exact le_trans (hy a ha) (le_of_not_lt hxy)

lemma pairwise_sortDescBySnd :
    ∀ (l : List (String × Nat)),
      (sortDescBySnd l).Pairwise (fun a b => b.2 ≤ a.2)
  | [] => by simp [sortDescBySnd]
  | x :: xs => pairwise_insertDesc x (sortDescBySnd xs) (pairwise_sortDescBySnd xs)

lemma filter_insertDesc_pos (x : String × Nat) (c : Nat) (h : x.2 = c) :
    ∀ (l : List (String × Nat)),
      (insertDesc x l).filter (fun a => a.2 == c)
        = x :: l.filter (fun a => a.2 == c)
  | [] => by simp [insertDesc, List.filter, beq_iff_eq.mpr h]
  | y :: ys => by
    by_cases hxy : x.2 < y.2
    · have hyc : (y.2 == c) = false :=
        beq_eq_false_iff_ne.mpr (fun hyy => by omega)
      simp only [insertDesc, if_pos hxy, List.filter, hyc]
      exact filter_insertDesc_pos x c h ys
    · simp only [insertDesc, if_neg hxy, List.filter, beq_iff_eq.mpr h]

lemma filter_insertDesc_neg (x : String × Nat) (c : Nat) (h : ¬ x.2 = c) :
    ∀ (l : List (String × Nat)),
      (insertDesc x l).filter (fun a => a.2 == c)
        = l.filter (fun a => a.2 == c)
  | [] => by simp [insertDesc, List.filter, beq_eq_false_iff_ne.mpr h]
  | y :: ys => by
    by_cases hxy : x.2 < y.2
    · simp only [insertDesc, if_pos hxy, List.filter]
      rw [filter_insertDesc_neg x c h ys]
    · simp only [insertDesc, if_neg hxy, List.filter,
        beq_eq_false_iff_ne.mpr h]

lemma filter_sortDescBySnd (c : Nat) :
    ∀ (l : List (String × Nat)),
      (sortDescBySnd l).filter (fun a => a.2 == c)
        = l.filter (fun a => a.2 == c)
  | [] => rfl
  | x :: xs => by
    by_cases hx : x.2 = c
    · simp only [sortDescBySnd, filter_insertDesc_pos x c hx,
        filter_sortDescBySnd c xs, List.filter, beq_iff_eq.mpr hx]
    · simp only [sortDescBySnd, filter_insertDesc_neg x c hx,
        filter_sortDescBySnd c xs, List.filter, beq_eq_false_iff_ne.mpr hx]

lemma countingFoldl_snd {σ α : Type} (g : σ → α → σ) :
    ∀ (l : List α) (st : σ × Nat),
      (countingFoldl g l st).2 = st.2 + l.length
  | [], st => by simp [countingFoldl]
  | a :: l, st => by
    have h := countingFoldl_snd g l (g st.1 a, st.2 + 1)
    simp only [countingFoldl, List.foldl_cons] at h ⊢
    rw [h]
    simp [List.length_cons]
    omega

/-! ## Claims -/

/-- C1 (amended): in `analyze_gene_list`, the per-gene tally update adds,
for every display name, exactly the number of records of that gene's
extracted association list bearing that name — one increment per record,
not one per distinct name.  Since the DiseaseEntity extractor deduplicates
by id only, a gene surfacing one name through K distinct ids contributes
+K to that name; concretely, a gene surfacing "X" through three distinct
ids and a second gene surfacing "X" once yield a ranked tally of
[("X", 4)], not [("X", 2)]. -/
theorem claim1_amended_tally_per_record :
    (∀ (counts : List (String × Nat)) (diseases : List DiseaseItem) (n : String),
      tallyCount (tallyGene counts diseases) n
        = tallyCount counts n + (diseases.map diseaseName).count n) ∧
    (DiseaseEntity.analyze_gene_list ["GA", "GB"] 5
        (fun _ => .success ["1"])
        (fun i => if i == 0 then
            .ok ⟨[⟨[⟨some "D1"⟩]⟩, ⟨[⟨some "D2"⟩]⟩, ⟨[⟨some "D3"⟩]⟩],
              [("D1", ⟨some "X", []⟩), ("D2", ⟨some "X", []⟩),
                ("D3", ⟨some "X", []⟩)]⟩
          else
            .ok ⟨[⟨[⟨some "D9"⟩]⟩], [("D9", ⟨some "X", []⟩)]⟩)).1.common_diseases
      = [("X", 4)] :=
  ⟨fun counts diseases n => tallyCount_tallyGene diseases counts n, rfl⟩

/-- C1 (counterexample): one single gene whose result rows bind two
distinct node ids sharing the display name "X" contributes +2 to the tally
for "X" (the dedup check is on ids, the tally on names), so its ranked
tally is [("X", 2)] and not [("X", 1)] as the claim requires. -/
theorem claim1_tally_counts_records_cex :
    (DiseaseEntity.analyze_gene_list ["G1"] 5
        (fun _ => .success ["1"])
        (fun _ => .ok ⟨[⟨[⟨some "D1"⟩]⟩, ⟨[⟨some "D2"⟩]⟩],
          [("D1", ⟨some "X", []⟩), ("D2", ⟨some "X", []⟩)]⟩)).1.common_diseases
      = [("X", 2)] ∧
    (DiseaseEntity.analyze_gene_list ["G1"] 5
        (fun _ => .success ["1"])
        (fun _ => .ok ⟨[⟨[⟨some "D1"⟩]⟩, ⟨[⟨some "D2"⟩]⟩],
          [("D1", ⟨some "X", []⟩), ("D2", ⟨some "X", []⟩)]⟩)).1.common_diseases
      ≠ [("X", 1)] :=
  ⟨rfl, by decide⟩

/-- C2 (amended): for the deduplicating extractor `extract_associations`
of mcpserver_drugdisease.py, the ids of the returned records are exactly
the first-occurrence deduplication of the catalogued ids bound across the
result rows in row order: at most one record per distinct id, first
occurrence wins, and a record appears if and only if the id is bound in
some row and present in the node catalogue. -/
theorem claim2_amended_dedup_first_occurrence :
    ∀ (message : KGMessage) (lbl : String),
      recordIds (DrugDisease.extract_associations (.ok message) lbl)
        = firstDedupFrom []
            (cataloguedIds message.nodes (candidateBindings message)) ∧
      (recordIds (DrugDisease.extract_associations (.ok message) lbl)).Nodup ∧
      ∀ i : String,
        i ∈ recordIds (DrugDisease.extract_associations (.ok message) lbl)
          ↔ i ∈ cataloguedIds message.nodes (candidateBindings message) := by
  intro message lbl
  have h1 : recordIds (DrugDisease.extract_associations (.ok message) lbl)
      = firstDedupFrom []
          (cataloguedIds message.nodes (candidateBindings message)) := by
    rw [extract_associations_ok,
      recordIds_foldl_extractStep message.nodes lbl (candidateBindings message) []]
    simp [recordIds]
  refine ⟨h1, ?_, ?_⟩
  · rw [h1]
    exact nodup_firstDedupFrom _ _
  · intro i
    rw [h1, mem_firstDedupFrom]
    simp

/-- C2 (counterexample): the extractor `extract_disease_associations` of
mcp_generic-checkpoint.py performs no duplicate check: a document whose
two result rows bind the same id "D1" yields two records for "D1", not
exactly one. -/
theorem claim2_generic_no_dedup_cex :
    McpGeneric.extract_disease_associations
        (.ok ⟨[⟨[⟨some "D1"⟩]⟩, ⟨[⟨some "D1"⟩]⟩], [("D1", ⟨some "X", []⟩)]⟩)
      = [.record ⟨"D1", "X", []⟩, .record ⟨"D1", "X", []⟩] ∧
    ((McpGeneric.extract_disease_associations
        (.ok ⟨[⟨[⟨some "D1"⟩]⟩, ⟨[⟨some "D1"⟩]⟩],
          [("D1", ⟨some "X", []⟩)]⟩)).filter
      (fun d => diseaseItemId d == some "D1")).length ≠ 1 :=
  ⟨rfl, by decide⟩

/-- C3 (amended): when gene resolution succeeds, the disease-category
query succeeds and the drug-category query fails, `find_gene_interactions`
returns a complete summary value (no fault is raised: every failure is
data): `top_diseases` is populated from the successful result, while
`top_drugs` is not empty — it contains exactly the single error-marker
record carrying the transport failure, and `drug_count` is 1. -/
theorem claim3_amended_drug_error_marker :
    ∀ (raw_symbol eid : String) (rest : List String)
      (message : KGMessage) (m : String),
      DrugDisease.find_gene_interactions raw_symbol (.success (eid :: rest))
          (.ok message) (.fail m)
        = (.summary
            ⟨raw_symbol.toUpper, eid,
              (DrugDisease.extract_associations (.ok message) "Disease").length,
              1,
              (DrugDisease.extract_associations (.ok message) "Disease").take 15,
              [.errorItem ("Connection error: " ++ m)]⟩, 2) := by
  intro raw_symbol eid rest message m
  rfl

/-- C3 (counterexample): with a successful disease query and a failing
drug query the summary's `top_drugs` list is NOT empty — it holds the
error-marker record — refuting the claim's "empty topDrugs". -/
theorem claim3_top_drugs_not_empty_cex :
    DrugDisease.topDrugsOf
        (DrugDisease.find_gene_interactions "TNF" (.success ["7124"])
          (.ok ⟨[⟨[⟨some "D0"⟩]⟩, ⟨[⟨some "D0"⟩]⟩],
            [("D0", ⟨some "Fever", []⟩)]⟩)
          (.fail "boom")).1
      ≠ [] ∧
    DrugDisease.topDrugsOf
        (DrugDisease.find_gene_interactions "TNF" (.success ["7124"])
          (.ok ⟨[⟨[⟨some "D0"⟩]⟩, ⟨[⟨some "D0"⟩]⟩],
            [("D0", ⟨some "Fever", []⟩)]⟩)
          (.fail "boom")).1
      = [.errorItem ("Connection error: " ++ "boom")] ∧
    DrugDisease.topDiseasesOf
        (DrugDisease.find_gene_interactions "TNF" (.success ["7124"])
          (.ok ⟨[⟨[⟨some "D0"⟩]⟩, ⟨[⟨some "D0"⟩]⟩],
            [("D0", ⟨some "Fever", []⟩)]⟩)
          (.fail "boom")).1
      = [.record ⟨"D0", "Fever", "Disease", []⟩] :=
  ⟨by decide, rfl, rfl⟩

/-- C4 (amended): `analyze_gene_list` slices the input to `[:limit]` and
uppercases it before the loop starts, and the loop issues exactly one
identifier lookup per retained symbol; hence for every NONNEGATIVE limit
at most `limit` identifier lookups are issued, in both checkpoint
variants.  (For a negative limit, Python slicing keeps all but the last
`|limit|` entries and one lookup is still issued per retained entry, so
the "at most limit" bound only holds for nonnegative limits.) -/
theorem claim4_amended_nonneg_limit_bound :
    ∀ (gene_symbols : List String) (limit : Int)
      (lo1 : Nat → FetchResult) (ko1 : Nat → KgOutcome)
      (lo2 : Nat → FetchResult) (ko2 : Nat → HttpOutcome),
      (DiseaseEntity.analyze_gene_list gene_symbols limit lo1 ko1).2
        = (pySlice limit gene_symbols).length ∧
      (McpGeneric.analyze_gene_list gene_symbols limit lo2 ko2).2
        = (pySlice limit gene_symbols).length ∧
      (DiseaseEntity.analyze_gene_list gene_symbols limit lo1 ko1).1.genes_analyzed
        = (pySlice limit gene_symbols).map String.toUpper ∧
      (0 ≤ limit →
        ((DiseaseEntity.analyze_gene_list gene_symbols limit lo1 ko1).2 : Int)
            ≤ limit ∧
        ((McpGeneric.analyze_gene_list gene_symbols limit lo2 ko2).2 : Int)
            ≤ limit) := by
  intro gene_symbols limit lo1 ko1 lo2 ko2
  have hd : (DiseaseEntity.analyze_gene_list gene_symbols limit lo1 ko1).2
      = (pySlice limit gene_symbols).length := by
    simp only [DiseaseEntity.analyze_gene_list]
    rw [countingFoldl_snd]
    simp [List.enum_length, List.length_map]
  have hm : (McpGeneric.analyze_gene_list gene_symbols limit lo2 ko2).2
      = (pySlice limit gene_symbols).length := by
    simp only [McpGeneric.analyze_gene_list]
    rw [countingFoldl_snd]
    simp [List.enum_length, List.length_map]
  refine ⟨hd, hm, rfl, ?_⟩
  intro hlim
  have hlen : (pySlice limit gene_symbols).length ≤ limit.toNat := by
    simp only [pySlice, if_pos hlim, List.length_take]
    omega
  have hcast : ((limit.toNat : Int)) = limit := Int.toNat_of_nonneg hlim
  constructor
  · rw [hd]
    omega
  · rw [hm]
    omega

/-- C4 (witness): at the concrete nonnegative limit 2 with one input
symbol, the lookup count is within the bound. -/
theorem claim4_amended_nonneg_limit_bound_witness :
    (0 : Int) ≤ 2 ∧
    ((DiseaseEntity.analyze_gene_list ["A"] 2
        (fun _ => FetchResult.success []) (fun _ => KgOutcome.fail "x")).2 : Int)
      ≤ 2 :=
  ⟨by decide,
    ((claim4_amended_nonneg_limit_bound ["A"] 2
      (fun _ => FetchResult.success []) (fun _ => KgOutcome.fail "x")
      (fun _ => FetchResult.success []) (fun _ => HttpOutcome.fail "x")).2.2.2
      (by decide)).1⟩

/-- C4 (counterexample): with `limit = -1` and two input genes, Python
slicing retains the first gene (all but the last one), one identifier
lookup is issued, and 1 is not at most -1 — refuting the claim for "every
limit value". -/
theorem claim4_negative_limit_cex :
    (DiseaseEntity.analyze_gene_list ["A", "B"] (-1)
        (fun _ => FetchResult.success []) (fun _ => KgOutcome.fail "x")).2 = 1 ∧
    ¬ (((DiseaseEntity.analyze_gene_list ["A", "B"] (-1)
        (fun _ => FetchResult.success []) (fun _ => KgOutcome.fail "x")).2 : Int)
      ≤ -1) :=
  ⟨rfl, by decide⟩

/-- C5: whenever gene resolution reports a status other than found, both
`find_gene_interactions` (DrugDisease) and `find_gene_diseases`
(McpGeneric) return the not-found message and issue zero knowledge-graph
queries (the query counter of the result is 0). -/
theorem claim5_not_found_short_circuit :
    ∀ (raw_symbol : String) (fetch : FetchResult)
      (dOut drOut kOut : HttpOutcome),
      ((DrugDisease.get_gene_info raw_symbol.toUpper fetch).status ≠ .found →
        DrugDisease.find_gene_interactions raw_symbol fetch dOut drOut
          = (.notFound ("Could not find gene: " ++ raw_symbol.toUpper), 0)) ∧
      ((McpGeneric.get_gene_info raw_symbol.toUpper fetch).status ≠ .found →
        McpGeneric.find_gene_diseases raw_symbol fetch kOut
          = (.notFound ("Could not find gene: " ++ raw_symbol.toUpper), 0)) := by
  intro raw_symbol fetch dOut drOut kOut
  constructor
  · intro h
    simp only [DrugDisease.find_gene_interactions]
    rw [if_pos h]
  · intro h
    simp only [McpGeneric.find_gene_diseases]
    rw [if_pos h]

/-- C5 (witness): an empty esearch id list resolves to status not_found,
and at that concrete input both tools return the not-found message with a
query count of 0. -/
theorem claim5_not_found_short_circuit_witness :
    ((DrugDisease.get_gene_info ("zzznotagene".toUpper)
        (FetchResult.success [])).status ≠ .found) ∧
    DrugDisease.find_gene_interactions "zzznotagene" (FetchResult.success [])
        (.fail "a") (.fail "b")
      = (.notFound ("Could not find gene: " ++ "zzznotagene".toUpper), 0) ∧
    ((McpGeneric.get_gene_info ("zzznotagene".toUpper)
        (FetchResult.success [])).status ≠ .found) ∧
    McpGeneric.find_gene_diseases "zzznotagene" (FetchResult.success [])
        (.fail "c")
      = (.notFound ("Could not find gene: " ++ "zzznotagene".toUpper), 0) :=
  ⟨by decide,
    (claim5_not_found_short_circuit "zzznotagene" (.success [])
      (.fail "a") (.fail "b") (.fail "c")).1 (by decide),
    by decide,
    (claim5_not_found_short_circuit "zzznotagene" (.success [])
      (.fail "a") (.fail "b") (.fail "c")).2 (by decide)⟩

/-- C6: in all three variants of `get_gene_info`, for every fetch outcome
the returned lookup carries an identifier if and only if its status is
found. -/
theorem claim6_identifier_iff_found :
    ∀ (gene_symbol : String) (fetch : FetchResult),
      ((DrugDisease.get_gene_info gene_symbol fetch).entrez_id.isSome
          ↔ (DrugDisease.get_gene_info gene_symbol fetch).status = .found) ∧
      ((McpGeneric.get_gene_info gene_symbol fetch).entrez_id.isSome
          ↔ (McpGeneric.get_gene_info gene_symbol fetch).status = .found) ∧
      ((DiseaseEntity.get_gene_info gene_symbol fetch).entrez_id.isSome
          ↔ (DiseaseEntity.get_gene_info gene_symbol fetch).status = .found) := by
  intro gene_symbol fetch
  rcases fetch with idlist | m
  · rcases idlist with _ | ⟨h, t⟩ <;>
      simp [DrugDisease.get_gene_info, McpGeneric.get_gene_info,
        DiseaseEntity.get_gene_info]
  · simp [DrugDisease.get_gene_info, McpGeneric.get_gene_info,
      DiseaseEntity.get_gene_info]

/-- C7: every external failure is returned as data and never propagated:
`get_gene_info` maps any exception to a lookup with status error and a
human-readable error detail, and the knowledge-graph client maps any
exception to the error-tagged result (with the HTTP-status branch of the
DiseaseEntity variant shown as well); all the embedded functions are
total, so no exception crosses a component boundary. -/
theorem claim7_failures_are_data :
    ∀ (gene_symbol m entrez_id target_category text : String) (code : Nat),
      DrugDisease.get_gene_info gene_symbol (.failure m)
        = ⟨none, none, .error, some m⟩ ∧
      (DrugDisease.get_gene_info gene_symbol (.failure m)).status = .error ∧
      (DrugDisease.get_gene_info gene_symbol (.failure m)).errorDetail = some m ∧
      DrugDisease.query_translator_kg entrez_id target_category (.fail m)
        = .error ("Connection error: " ++ m) ∧
      DiseaseEntity.query_translator_kg entrez_id (.fail m)
        = .error ("Connection error: " ++ m) ∧
      DiseaseEntity.query_translator_kg entrez_id (.httpError code text)
        = .error ("HTTP Error: " ++ toString code ++ " - " ++ text) ∧
      McpGeneric.query_translator_kg entrez_id (.fail m) = .error m :=
  fun _ _ _ _ _ _ => ⟨rfl, rfl, rfl, rfl, rfl, rfl, rfl⟩

/-- C8: the ranking of `analyze_gene_list` sorts the tally entries by
descending count (`Pairwise` on the sorted output), is stable on ties (for
every count value the subsequence of entries with that count is unchanged,
so equal counts keep the order in which their names were first inserted
into the tally — `bump` appends a new name at the end and updates existing
names in place), and the ranked output is capped at the top 10; in
particular the tally [("X",3), ("Y",3), ("Z",1)] ranks to exactly
[("X",3), ("Y",3), ("Z",1)]. -/
theorem claim8_ranking_sorted_stable_capped :
    (∀ counts : List (String × Nat),
      (sortDescBySnd counts).Pairwise (fun a b => b.2 ≤ a.2)) ∧
    (∀ (counts : List (String × Nat)) (c : Nat),
      (sortDescBySnd counts).filter (fun p => p.2 == c)
        = counts.filter (fun p => p.2 == c)) ∧
    (∀ counts : List (String × Nat),
      rankCommon counts = (sortDescBySnd counts).take 10) ∧
    (∀ counts : List (String × Nat), (rankCommon counts).length ≤ 10) ∧
    rankCommon [("X", 3), ("Y", 3), ("Z", 1)]
      = [("X", 3), ("Y", 3), ("Z", 1)] := by
  refine ⟨pairwise_sortDescBySnd, fun counts c => filter_sortDescBySnd c counts,
    fun _ => rfl, ?_, rfl⟩
  intro counts
  rw [rankCommon, List.length_take]
  exact min_le_left _ _

/-- C9: when resolution succeeds, the `find_gene_interactions` summary
truncates each category's displayed list to its first 15 records while
`disease_count` and `drug_count` are the lengths of the untruncated
extracted lists; the displayed lists never exceed 15 entries. -/
theorem claim9_display_cap_and_full_counts :
    ∀ (raw_symbol eid : String) (rest : List String)
      (dOut drOut : HttpOutcome),
      DrugDisease.find_gene_interactions raw_symbol (.success (eid :: rest))
          dOut drOut
        = (.summary
            ⟨raw_symbol.toUpper, eid,
              (DrugDisease.extract_associations
                (DrugDisease.query_translator_kg eid "biolink:Disease" dOut)
                "Disease").length,
              (DrugDisease.extract_associations
                (DrugDisease.query_translator_kg eid "biolink:ChemicalEntity" drOut)
                "Drug").length,
              (DrugDisease.extract_associations
                (DrugDisease.query_translator_kg eid "biolink:Disease" dOut)
                "Disease").take 15,
              (DrugDisease.extract_associations
                (DrugDisease.query_translator_kg eid "biolink:ChemicalEntity" drOut)
                "Drug").take 15⟩, 2) ∧
      ((DrugDisease.extract_associations
          (DrugDisease.query_translator_kg eid "biolink:Disease" dOut)
          "Disease").take 15).length ≤ 15 ∧
      ((DrugDisease.extract_associations
          (DrugDisease.query_translator_kg eid "biolink:ChemicalEntity" drOut)
          "Drug").take 15).length ≤ 15 := by
  intro raw_symbol eid rest dOut drOut
  refine ⟨rfl, ?_, ?_⟩ <;>
    · rw [List.length_take]
      exact min_le_left _ _

/-- C10: a bound object node whose id is present in the node catalogue but
whose catalogue entry has no name field is still emitted by
`extract_associations` as a record whose name falls back to the node id
(it is not skipped and causes no failure). -/
theorem claim10_nameless_node_fallback :
    ∀ (message : KGMessage) (lbl i : String) (info : NodeInfo),
      message.nodes.lookup i = some info →
      info.name = none →
      i ∈ (candidateBindings message).filterMap NodeBinding.id →
      ∃ r : AssocRecord,
        AssocItem.record r ∈ DrugDisease.extract_associations (.ok message) lbl ∧
        r.id = i ∧ r.name = i := by
  intro message lbl i info hlook hname hmem
  have hcat : i ∈ cataloguedIds message.nodes (candidateBindings message) := by
    simp only [cataloguedIds, List.mem_filter]
    exact ⟨hmem, by simp [hlook]⟩
  have hout : i ∈ recordIds (DrugDisease.extract_associations (.ok message) lbl) := by
    rw [extract_associations_ok,
      recordIds_foldl_extractStep message.nodes lbl (candidateBindings message) []]
    simp only [recordIds, List.filterMap_nil, List.nil_append]
    exact (mem_firstDedupFrom _ [] i).mpr ⟨hcat, by simp⟩
  rcases List.mem_filterMap.mp hout with ⟨it, hit, hid⟩
  rcases it with em | r
  · simp [itemId] at hid
  · have hrid : r.id = i := by
      simpa [itemId] using hid
    refine ⟨r, hit, hrid, ?_⟩
    have hfold : AssocItem.record r ∈
        (candidateBindings message).foldl
          (DrugDisease.extractStep message.nodes lbl) [] := by
      rw [← extract_associations_ok]
      exact hit
    have hn := record_name_foldl message.nodes lbl (candidateBindings message) []
      (by intro r0 hr0; simp at hr0) r hfold info (by rw [hrid]; exact hlook)
    rw [hn, hname, hrid]
    rfl

/-- C10 (witness): a one-row document whose single catalogued node "D7"
has no name field yields a record with id and name both "D7". -/
theorem claim10_nameless_node_fallback_witness :
    ([("D7", (⟨none, ["biolink:Disease"]⟩ : NodeInfo))].lookup "D7"
        = some ⟨none, ["biolink:Disease"]⟩) ∧
    ((⟨none, ["biolink:Disease"]⟩ : NodeInfo).name = none) ∧
    (∃ r : AssocRecord,
      AssocItem.record r ∈ DrugDisease.extract_associations
        (.ok ⟨[⟨[⟨some "D7"⟩]⟩], [("D7", ⟨none, ["biolink:Disease"]⟩)]⟩)
        "Disease" ∧
      r.id = "D7" ∧ r.name = "D7") :=
  ⟨rfl, rfl,
    claim10_nameless_node_fallback
      ⟨[⟨[⟨some "D7"⟩]⟩], [("D7", ⟨none, ["biolink:Disease"]⟩)]⟩
      "Disease" "D7" ⟨none, ["biolink:Disease"]⟩ rfl rfl (by decide)⟩
